import Mathlib

/-!
# Explorer++ : selection tests, bookmarks main menu and bookmark tree

A shallow embedding of

* `Explorer++/Explorer++/FileSelectionTests.cpp` (the `Explorerplusplus` selection and
  clipboard capability queries),
* `Explorer++/Explorer++/Bookmarks/UI/BookmarksMainMenu.cpp`
  (`BookmarksMainMenu::OnMenuItemMiddleClicked`),
* the mutation surface of `BookmarkTree` declared in `Explorer++/Explorer++/BookmarkTree.h`
  (`AddBookmarkItem`, `RemoveBookmarkItem`, `IsPermanentNode`); the header gives the members
  and signals, the bodies are modelled from the specification.

Window handles, tree item handles and menu handles are natural numbers with `0` for `NULL`.
`HRESULT` and `BOOL` are C `long`/`int` values, modelled as integers; `SFGAOF` is an unsigned
bit mask, modelled as a natural number with bitwise and.
-/

namespace Explorerplusplus

/-! ## Win32 scalar types and constants -/

abbrev HRESULT := Int
abbrev BOOL := Int
abbrev SFGAOF := Nat
abbrev HWND := Nat
abbrev HTREEITEM := Nat
abbrev CLIPFORMAT := Nat

/-- An absolute item id list: the sequence of its item ids. A null pointer is `none` at the
places where the code handles a `unique_pidl`. -/
abbrev PIDL := List Nat

def TRUE : BOOL := 1
def FALSE : BOOL := 0

def S_OK : HRESULT := 0
def S_FALSE : HRESULT := 1
/-- The value `0x80004005` read as a signed 32-bit integer. -/
def E_FAIL : HRESULT := -2147467259

/-- The macro `SUCCEEDED(hr)`, that is `((HRESULT)(hr)) >= 0`. -/
def SUCCEEDED (hr : HRESULT) : Bool := decide (0 ≤ hr)

/-- The macro `FAILED(hr)`, that is `((HRESULT)(hr)) < 0`. -/
def FAILED (hr : HRESULT) : Bool := decide (hr < 0)

def SFGAO_CANCOPY : SFGAOF := 0x1
def SFGAO_CANMOVE : SFGAOF := 0x2
def SFGAO_CANRENAME : SFGAOF := 0x10
def SFGAO_CANDELETE : SFGAOF := 0x20
def SFGAO_HASPROPSHEET : SFGAOF := 0x40
def SFGAO_FILESYSTEM : SFGAOF := 0x40000000

/-- Conversion of a C++ `bool` to the integer it becomes when returned as `BOOL` or
`HRESULT`. -/
def ofBool (b : Bool) : Int := if b then 1 else 0

/-! ## The part of the application state the selection tests read -/

/-- What the member functions of `FileSelectionTests.cpp` read: the focused window, the two
view handles, the selection held by each view, and the external services the functions call
(`GetItemAttributes`, `IsChildOfLibrariesFolder`, the shell browser, the tree view, the
clipboard). `GetItemAttributes` receives the pointer and the value stored in
`*pItemAttributes` on entry, and returns the `HRESULT` together with the value stored there
on exit. -/
structure State where
  /-- Result of `GetFocus()`. -/
  focus : HWND
  m_hActiveListView : HWND
  m_hTreeView : HWND
  /-- Indices of the selected list-view items, in the order `ListView_GetNextItem` walks
  them. -/
  listViewSelected : List Int
  /-- Result of `TreeView_GetSelection(m_hTreeView)`, `0` when nothing is selected. -/
  treeViewSelection : HTREEITEM
  /-- Result of `m_pActiveShellBrowser->GetDirectoryIdl()`. -/
  directoryIdl : Option PIDL
  /-- Result of `m_pActiveShellBrowser->GetItemCompleteIdl(item)`. -/
  itemCompleteIdl : Int → Option PIDL
  /-- Result of `m_pMyTreeView->GetItemPidl(hItem)`. -/
  treeItemPidl : HTREEITEM → Option PIDL
  GetItemAttributes : Option PIDL → SFGAOF → HRESULT × SFGAOF
  IsChildOfLibrariesFolder : Option PIDL → Bool
  /-- The `cfFormat` members of the list filled by `CDropHandler::GetDropFormats`. -/
  dropFormats : List CLIPFORMAT
  IsClipboardFormatAvailable : CLIPFORMAT → Bool
  /-- Result of `m_pActiveShellBrowser->CanCreate()`. -/
  shellBrowserCanCreate : Bool

/-- The macro `ListView_GetSelectedCount`. -/
def ListView_GetSelectedCount (s : State) : Nat := s.listViewSelected.length

/-- The call `ListView_GetNextItem(m_hActiveListView, -1, LVNI_SELECTED)`: the first selected
item, `-1` when there is none. -/
def ListView_GetNextItem_first (s : State) : Int :=
  match s.listViewSelected with
  | [] => -1
  | i :: _ => i

/-! ## `FileSelectionTests.cpp` -/

def AnyItemsSelected (s : State) : BOOL :=
  if s.focus = s.m_hActiveListView then
    if ListView_GetSelectedCount s > 0 then TRUE else FALSE
  else if s.focus = s.m_hTreeView then
    if s.treeViewSelection ≠ 0 then TRUE else FALSE
  else FALSE

def CanCreate (s : State) : Bool :=
  let pidlDirectory := s.directoryIdl
  let r := s.GetItemAttributes pidlDirectory SFGAO_FILESYSTEM
  if FAILED r.1 then false
  else if r.2 &&& SFGAO_FILESYSTEM = SFGAO_FILESYSTEM then true
  else s.IsChildOfLibrariesFolder pidlDirectory

def GetListViewItemAttributes (s : State) (item : Int) (itemAttributes : SFGAOF) :
    HRESULT × SFGAOF :=
  match s.itemCompleteIdl item with
  | none => (E_FAIL, itemAttributes)
  | some pidl => s.GetItemAttributes (some pidl) itemAttributes

def GetListViewSelectionAttributes (s : State) (itemAttributes : SFGAOF) :
    HRESULT × SFGAOF :=
  let iSelected := ListView_GetNextItem_first s
  if iSelected ≠ -1 then GetListViewItemAttributes s iSelected itemAttributes
  else (E_FAIL, itemAttributes)

def GetTreeViewSelectionAttributes (s : State) (itemAttributes : SFGAOF) :
    HRESULT × SFGAOF :=
  let hItem := s.treeViewSelection
  if hItem ≠ 0 then s.GetItemAttributes (s.treeItemPidl hItem) itemAttributes
  else (E_FAIL, itemAttributes)

def GetSelectionAttributes (s : State) (itemAttributes : SFGAOF) : HRESULT × SFGAOF :=
  if s.focus = s.m_hActiveListView then GetListViewSelectionAttributes s itemAttributes
  else if s.focus = s.m_hTreeView then GetTreeViewSelectionAttributes s itemAttributes
  else (E_FAIL, itemAttributes)

def TestItemAttributes (s : State) (attributes : SFGAOF) : BOOL :=
  let r := GetSelectionAttributes s attributes
  if SUCCEEDED r.1 then ofBool (decide (r.2 &&& attributes = attributes))
  else FALSE

def TestListViewItemAttributes (s : State) (item : Int) (attributes : SFGAOF) : HRESULT :=
  let r := GetListViewItemAttributes s item attributes
  if SUCCEEDED r.1 then ofBool (decide (r.2 &&& attributes = attributes))
  else FALSE

def CanCut (s : State) : BOOL := TestItemAttributes s SFGAO_CANMOVE

def CanCopy (s : State) : BOOL := TestItemAttributes s SFGAO_CANCOPY

def CanRename (s : State) : BOOL := TestItemAttributes s SFGAO_CANRENAME

def CanDelete (s : State) : BOOL := TestItemAttributes s SFGAO_CANDELETE

def CanShowFileProperties (s : State) : BOOL := TestItemAttributes s SFGAO_HASPROPSHEET

def CanPaste (s : State) : BOOL :=
  let bDataAvailable := s.dropFormats.any s.IsClipboardFormatAvailable
  if s.focus = s.m_hActiveListView then
    ofBool (bDataAvailable && s.shellBrowserCanCreate)
  else if s.focus = s.m_hTreeView then
    let hItem := s.treeViewSelection
    if hItem ≠ 0 then
      let r := s.GetItemAttributes (s.treeItemPidl hItem) SFGAO_FILESYSTEM
      if r.1 = S_OK then ofBool bDataAvailable else FALSE
    else FALSE
  else FALSE

end Explorerplusplus

/-! ## `BookmarksMainMenu.cpp` -/

namespace BookmarksMainMenu

abbrev HMENU := Nat

structure POINT where
  x : Int
  y : Int

/-- A value of `m_menuInfo.itemPositionMap`: the bookmark item the menu entry stands for and
the entry's `BookmarkMenuBuilder::MenuItemType`. The enumeration is declared in
`BookmarkMenuBuilder.h`; it is a parameter here, as is the representation of a
`BookmarkItem *`. -/
structure MenuItemEntry (Item MenuItemType : Type) where
  bookmarkItem : Item
  menuItemType : MenuItemType

/-- What `OnMenuItemMiddleClicked` reads: the tracked menus `m_menuInfo.menus` in iteration
order, the map `m_menuInfo.itemPositionMap`, the enumerator `MenuItemType::EmptyItem`, and the
Win32 call `MenuItemFromPoint(m_coreInterface->GetMainWindow(), menu, pt)`. -/
structure MenuState (Item MenuItemType : Type) where
  menus : List HMENU
  itemPositionMap : HMENU × Int → Option (MenuItemEntry Item MenuItemType)
  EmptyItem : MenuItemType
  MenuItemFromPoint : HMENU → POINT → Int

/-- One call `m_controller.OnMenuItemMiddleClicked(bookmarkItem, isCtrlKeyDown,
isShiftKeyDown)`. -/
structure ControllerCall (Item : Type) where
  bookmarkItem : Item
  isCtrlKeyDown : Bool
  isShiftKeyDown : Bool

/-- The `for (auto menu : m_menuInfo.menus)` loop of `OnMenuItemMiddleClicked`: the first menu
whose `MenuItemFromPoint` result is `>= 0`, with that result; `none` when the loop ends with
`targetFound == false`. -/
def findTarget {Item MenuItemType : Type} (m : MenuState Item MenuItemType) (pt : POINT) :
    List HMENU → Option (HMENU × Int)
  | [] => none
  | menu :: rest =>
    let item := m.MenuItemFromPoint menu pt
    if item ≥ 0 then some (menu, item) else findTarget m pt rest

/-- The function `BookmarksMainMenu::OnMenuItemMiddleClicked`: its return value and the calls
it makes on the controller. -/
def OnMenuItemMiddleClicked {Item MenuItemType : Type} [DecidableEq MenuItemType]
    (m : MenuState Item MenuItemType) (pt : POINT) (isCtrlKeyDown isShiftKeyDown : Bool) :
    Bool × List (ControllerCall Item) :=
  match findTarget m pt m.menus with
  | none => (false, [])
  | some target =>
    match m.itemPositionMap target with
    | none => (true, [])
    | some entry =>
      if entry.menuItemType = m.EmptyItem then (true, [])
      else (true, [⟨entry.bookmarkItem, isCtrlKeyDown, isShiftKeyDown⟩])

end BookmarksMainMenu

/-! ## `BookmarkTree` -/

namespace Bookmarks

/-- Modelled from the spec: the class `BookmarkItem` (`BookmarkItem.h` is not part of the
sources read). A node has an identifier assigned at creation, a kind (folder or bookmark), a
display name, a location (bookmarks only) and an ordered sequence of children (folders
only). -/
inductive BookmarkItem where
  | Bookmark (guid : String) (name : String) (location : String)
  | Folder (guid : String) (name : String) (children : List BookmarkItem)

namespace BookmarkItem

def GetGUID : BookmarkItem → String
  | Bookmark guid _ _ => guid
  | Folder guid _ _ => guid

mutual
/-- The identifiers met by a traversal of the subtree rooted at a node, the node first. -/
def guids : BookmarkItem → List String
  | Bookmark guid _ _ => [guid]
  | Folder guid _ children => guid :: guidsOfList children
/-- The identifiers met by a traversal of a sequence of siblings with their subtrees. -/
def guidsOfList : List BookmarkItem → List String
  | [] => []
  | child :: rest => guids child ++ guidsOfList rest
end

/-- A `BookmarkItem *` argument designates a node of the tree by its position: the child
indices that lead to it from the root. `itemAt path root` is the node so designated, `none`
when the path leads nowhere. -/
def itemAt : List Nat → BookmarkItem → Option BookmarkItem
  | [], item => some item
  | _ :: _, Bookmark _ _ _ => none
  | i :: rest, Folder _ _ children =>
    match children[i]? with
    | none => none
    | some child => itemAt rest child

/-- Modelled from the spec: `parent->AddChild(item, index)` applied to the node at `path`,
"inserts `item` at `index`, shifting later siblings". `none` when the path does not lead to a
folder or `index` exceeds the number of children (the caller violated the precondition). -/
def insertChildAt (item : BookmarkItem) (index : Nat) : List Nat → BookmarkItem →
    Option BookmarkItem
  | [], Bookmark _ _ _ => none
  | [], Folder guid name children =>
    if index ≤ children.length then some (Folder guid name (children.insertIdx index item))
    else none
  | _ :: _, Bookmark _ _ _ => none
  | i :: rest, Folder guid name children =>
    match children[i]? with
    | none => none
    | some child =>
      match insertChildAt item index rest child with
      | none => none
      | some child2 => some (Folder guid name (children.set i child2))

/-- Modelled from the spec: "detaches the node from its parent" and "releases the node
(recursively releasing its subtree)": the tree without the subtree at `path`. `none` when the
path is empty (the root has no parent) or leads nowhere. -/
def removeAt : List Nat → BookmarkItem → Option BookmarkItem
  | [], _ => none
  | _ :: _, Bookmark _ _ _ => none
  | [i], Folder guid name children =>
    if i < children.length then some (Folder guid name (children.eraseIdx i)) else none
  | i :: j :: rest, Folder guid name children =>
    match children[i]? with
    | none => none
    | some child =>
      match removeAt (j :: rest) child with
      | none => none
      | some child2 => some (Folder guid name (children.set i child2))

end BookmarkItem

/-- Modelled from the spec: `BookmarkItem::PropertyType` (`BookmarkItem.h` is not part of the
sources read), the kind of a property update: "rename, location change". -/
inductive PropertyType where
  | Name
  | Location

/-- The four signals of `BookmarkTree` with the arguments they carry. -/
inductive Signal where
  | bookmarkItemAdded (bookmarkItem : BookmarkItem) (index : Nat)
  | bookmarkItemUpdated (bookmarkItem : BookmarkItem) (propertyType : PropertyType)
  | bookmarkItemPreRemoval (bookmarkItem : BookmarkItem)
  | bookmarkItemRemoved (guid : String)

/-- One synchronous delivery of a signal to the observers, with the tree (its root) as the
observers find it during the delivery. -/
structure Notification where
  signal : Signal
  treeAtDelivery : BookmarkItem

/-- The data members of `BookmarkTree`. A pointer member is represented by the identifier of
the node it points to: unlike a position, it stays the same when siblings are inserted or
removed, and the data model makes identifiers unique. -/
structure BookmarkTree where
  m_root : BookmarkItem
  m_bookmarksToolbar : String
  m_bookmarksMenu : String

namespace BookmarkTree

/-- Modelled from the spec: `IsPermanentNode` (declared in `BookmarkTree.h`, its body is in
`BookmarkTree.cpp`, not part of the sources read): the node is one of the two permanent
folders the tree points to. -/
def IsPermanentNode (t : BookmarkTree) (bookmarkItem : BookmarkItem) : Bool :=
  bookmarkItem.GetGUID = t.m_bookmarksToolbar || bookmarkItem.GetGUID = t.m_bookmarksMenu

/-- Modelled from the spec: `AddBookmarkItem` (body in `BookmarkTree.cpp`, not part of the
sources read). "Inserts `item` at `index`, shifting later siblings. Side effect: emits an
item added notification carrying the new item and its index, after insertion completes."
`none` stands for a call that violates the precondition (`parent` is a folder of this tree,
`0 <= index <= parent.children.size()`), for which the source defines no behaviour. -/
def AddBookmarkItem (t : BookmarkTree) (parent : List Nat) (bookmarkItem : BookmarkItem)
    (index : Nat) : Option (BookmarkTree × List Notification) :=
  match BookmarkItem.insertChildAt bookmarkItem index parent t.m_root with
  | none => none
  | some root2 =>
    some ({ t with m_root := root2 }, [⟨Signal.bookmarkItemAdded bookmarkItem index, root2⟩])

/-- Modelled from the spec: `RemoveBookmarkItem` (body in `BookmarkTree.cpp`, not part of the
sources read). The root and the permanent nodes are rejected ("the source guards removal of
permanent nodes"): the call returns with the tree as it was and no notification. Otherwise it
"emits a pre-removal notification (node still valid, still attached)", "detaches the node
from its parent, captures its identifier, releases the node", "then emits a removed
notification carrying only the identifier". `none` stands for a pointer that designates no
node of the tree. -/
def RemoveBookmarkItem (t : BookmarkTree) (bookmarkItem : List Nat) :
    Option (BookmarkTree × List Notification) :=
  match BookmarkItem.itemAt bookmarkItem t.m_root with
  | none => none
  | some item =>
    if bookmarkItem = [] || t.IsPermanentNode item then some (t, [])
    else
      let preRemoval : Notification := ⟨Signal.bookmarkItemPreRemoval item, t.m_root⟩
      let guid := item.GetGUID
      match BookmarkItem.removeAt bookmarkItem t.m_root with
      | none => none
      | some root2 =>
        some ({ t with m_root := root2 },
          [preRemoval, ⟨Signal.bookmarkItemRemoved guid, root2⟩])

end BookmarkTree

end Bookmarks

/-! ## Concrete inputs used by the closed statements below -/

namespace Explorerplusplus

/-- A list view (handle `1`) with the focus and two selected items, `0` and `1`: item `0` can
be moved and copied, item `1` can only be copied. The attribute query succeeds for both and
returns the requested bits the item has. -/
def twoSelectedItems : State where
  focus := 1
  m_hActiveListView := 1
  m_hTreeView := 2
  listViewSelected := [0, 1]
  treeViewSelection := 0
  directoryIdl := some [7]
  itemCompleteIdl := fun item => some [7, item.toNat]
  treeItemPidl := fun _ => none
  GetItemAttributes := fun pidl requested =>
    if pidl = some [7, 0] then (S_OK, requested &&& (SFGAO_CANMOVE ||| SFGAO_CANCOPY))
    else (S_OK, requested &&& SFGAO_CANCOPY)
  IsChildOfLibrariesFolder := fun _ => false
  dropFormats := [15]
  IsClipboardFormatAvailable := fun _ => true
  shellBrowserCanCreate := true

/-- The state `twoSelectedItems` with the focus on a third window (handle `3`). -/
def focusElsewhere : State := { twoSelectedItems with focus := 3, treeViewSelection := 4 }

/-- A library folder whose attribute query fails. -/
def failingLibraryFolder : State :=
  { twoSelectedItems with
    GetItemAttributes := fun _ requested => (E_FAIL, requested)
    IsChildOfLibrariesFolder := fun _ => true }

end Explorerplusplus

namespace BookmarksMainMenu

/-- Two tracked menus, `10` and `20`. The point `(0, 0)` is over no item of menu `10` (the
call fails with `-2`) and over item `3` of menu `20`, which stands for bookmark `42`. -/
def twoMenus : MenuState Nat Nat where
  menus := [10, 20]
  itemPositionMap := fun key => if key = (20, 3) then some ⟨42, 1⟩ else none
  EmptyItem := 0
  MenuItemFromPoint := fun menu _ => if menu = 20 then 3 else -2

end BookmarksMainMenu

namespace Bookmarks

/-- A tree whose root holds the two permanent folders; the menu folder holds a bookmark and a
folder with one more bookmark. -/
def exampleTree : BookmarkTree where
  m_root := BookmarkItem.Folder "root" "Bookmarks" [
    BookmarkItem.Folder "toolbar" "Bookmarks Toolbar" [],
    BookmarkItem.Folder "menu" "Bookmarks Menu" [
      BookmarkItem.Bookmark "b1" "Example" "https://example.com",
      BookmarkItem.Folder "f1" "Work" [BookmarkItem.Bookmark "b2" "Documents" "C:/Documents"]]]
  m_bookmarksToolbar := "toolbar"
  m_bookmarksMenu := "menu"

/-- A bookmark that is not part of `exampleTree`. -/
def newBookmark : BookmarkItem := BookmarkItem.Bookmark "b3" "Downloads" "C:/Downloads"

end Bookmarks

/-! ## Properties of `FileSelectionTests.cpp` -/

namespace Explorerplusplus

theorem FAILED_eq_not_SUCCEEDED (hr : HRESULT) : FAILED hr = !SUCCEEDED hr := by
  unfold FAILED SUCCEEDED
  by_cases h : 0 ≤ hr
  · simp [h, not_lt.mpr h]
  · simp [h, not_le.mp h]

theorem SUCCEEDED_E_FAIL : SUCCEEDED E_FAIL = false := by decide

theorem GetSelectionAttributes_no_focus (s : State) (itemAttributes : SFGAOF)
    (hList : s.focus ≠ s.m_hActiveListView) (hTree : s.focus ≠ s.m_hTreeView) :
    GetSelectionAttributes s itemAttributes = (E_FAIL, itemAttributes) := by
  simp [GetSelectionAttributes, hList, hTree]

theorem TestItemAttributes_no_focus (s : State) (attributes : SFGAOF)
    (hList : s.focus ≠ s.m_hActiveListView) (hTree : s.focus ≠ s.m_hTreeView) :
    TestItemAttributes s attributes = FALSE := by
  simp [TestItemAttributes, GetSelectionAttributes_no_focus s attributes hList hTree,
    SUCCEEDED_E_FAIL]

/-- With the focus on the list view, `TestItemAttributes` is the test of the first selected
item alone; the other selected items are not consulted. -/
theorem TestItemAttributes_listView (s : State) (first : Int) (others : List Int)
    (attributes : SFGAOF) (hFocus : s.focus = s.m_hActiveListView)
    (hSelected : s.listViewSelected = first :: others) (hFirst : first ≠ -1) :
    TestItemAttributes s attributes = TestListViewItemAttributes s first attributes := by
  simp [TestItemAttributes, TestListViewItemAttributes, GetSelectionAttributes,
    GetListViewSelectionAttributes, ListView_GetNextItem_first, hFocus, hSelected, hFirst]

/-- C6 (failing input): with the list view focused and items `0` and `1` selected, where
only item `0` has `SFGAO_CANMOVE`, `TestItemAttributes(SFGAO_CANMOVE)` and `CanCut` return
`TRUE` although the second selected item lacks the attribute: only the first selected item is
examined. -/
theorem TestItemAttributes_examines_first_selected_only :
    twoSelectedItems.focus = twoSelectedItems.m_hActiveListView ∧
    twoSelectedItems.listViewSelected = [0, 1] ∧
    TestListViewItemAttributes twoSelectedItems 0 SFGAO_CANMOVE = 1 ∧
    TestListViewItemAttributes twoSelectedItems 1 SFGAO_CANMOVE = 0 ∧
    TestItemAttributes twoSelectedItems SFGAO_CANMOVE = TRUE ∧
    CanCut twoSelectedItems = TRUE := by
  decide

/-- C7: `CanCreate` returns true exactly when the attribute query for the current directory
succeeds and either the returned attributes contain `SFGAO_FILESYSTEM` or the directory is a
child of the libraries folder; when the query fails it returns false, whatever
`IsChildOfLibrariesFolder` answers. -/
theorem CanCreate_iff (s : State) :
    (CanCreate s = true ↔
      SUCCEEDED (s.GetItemAttributes s.directoryIdl SFGAO_FILESYSTEM).1 = true ∧
      ((s.GetItemAttributes s.directoryIdl SFGAO_FILESYSTEM).2 &&& SFGAO_FILESYSTEM
          = SFGAO_FILESYSTEM ∨
        s.IsChildOfLibrariesFolder s.directoryIdl = true)) ∧
    (FAILED (s.GetItemAttributes s.directoryIdl SFGAO_FILESYSTEM).1 = true →
      CanCreate s = false) := by
  unfold CanCreate
  simp only [FAILED_eq_not_SUCCEEDED]
  cases hs : SUCCEEDED (s.GetItemAttributes s.directoryIdl SFGAO_FILESYSTEM).1
  · simp
  · by_cases hfs : (s.GetItemAttributes s.directoryIdl SFGAO_FILESYSTEM).2 &&& SFGAO_FILESYSTEM
        = SFGAO_FILESYSTEM
    · simp [hfs]
    · simp [hfs]

/-- Witness for C7: a library folder whose attribute query fails cannot be created in. -/
theorem CanCreate_iff_witness :
    failingLibraryFolder.IsChildOfLibrariesFolder failingLibraryFolder.directoryIdl = true ∧
    CanCreate failingLibraryFolder = false :=
  ⟨by decide, (CanCreate_iff failingLibraryFolder).2 (by decide)⟩

/-- C9: when the focused window is neither the active list view nor the tree view,
`GetSelectionAttributes` returns `E_FAIL` and leaves the attribute value as it was, and
`AnyItemsSelected`, `CanCut`, `CanCopy`, `CanRename`, `CanDelete`, `CanShowFileProperties` and
`CanPaste` all return `FALSE`, whatever the views have selected and whatever the clipboard
holds. -/
theorem no_focus_all_FALSE (s : State) (itemAttributes : SFGAOF)
    (hList : s.focus ≠ s.m_hActiveListView) (hTree : s.focus ≠ s.m_hTreeView) :
    GetSelectionAttributes s itemAttributes = (E_FAIL, itemAttributes) ∧
    AnyItemsSelected s = FALSE ∧ CanCut s = FALSE ∧ CanCopy s = FALSE ∧
    CanRename s = FALSE ∧ CanDelete s = FALSE ∧ CanShowFileProperties s = FALSE ∧
    CanPaste s = FALSE := by
  refine ⟨GetSelectionAttributes_no_focus s itemAttributes hList hTree, ?_,
    TestItemAttributes_no_focus s _ hList hTree, TestItemAttributes_no_focus s _ hList hTree,
    TestItemAttributes_no_focus s _ hList hTree, TestItemAttributes_no_focus s _ hList hTree,
    TestItemAttributes_no_focus s _ hList hTree, ?_⟩
  · simp [AnyItemsSelected, hList, hTree]
  · simp [CanPaste, hList, hTree]

/-- Witness for C9: two list-view items and a tree item are selected and the clipboard holds
data, the focus is on a third window. -/
theorem no_focus_all_FALSE_witness :
    focusElsewhere.listViewSelected = [0, 1] ∧ focusElsewhere.treeViewSelection = 4 ∧
    GetSelectionAttributes focusElsewhere SFGAO_CANMOVE = (E_FAIL, SFGAO_CANMOVE) ∧
    AnyItemsSelected focusElsewhere = FALSE ∧ CanCut focusElsewhere = FALSE ∧
    CanCopy focusElsewhere = FALSE ∧ CanRename focusElsewhere = FALSE ∧
    CanDelete focusElsewhere = FALSE ∧ CanShowFileProperties focusElsewhere = FALSE ∧
    CanPaste focusElsewhere = FALSE :=
  ⟨rfl, rfl, no_focus_all_FALSE focusElsewhere SFGAO_CANMOVE (by decide) (by decide)⟩

/-- C10: `TestListViewItemAttributes` returns `1` exactly when the item has a PIDL, the
attribute query succeeds and the returned attributes contain every bit of the mask; it
returns `0` in every other case, in particular when the item has no PIDL and when the query
fails; so its `HRESULT` is never a failure code and passes `SUCCEEDED` for every input. -/
theorem TestListViewItemAttributes_value (s : State) (item : Int) (attributes : SFGAOF) :
    (TestListViewItemAttributes s item attributes = 1 ↔
      ∃ pidl, s.itemCompleteIdl item = some pidl ∧
        SUCCEEDED (s.GetItemAttributes (some pidl) attributes).1 = true ∧
        (s.GetItemAttributes (some pidl) attributes).2 &&& attributes = attributes) ∧
    (TestListViewItemAttributes s item attributes ≠ 1 →
      TestListViewItemAttributes s item attributes = 0) ∧
    (s.itemCompleteIdl item = none → TestListViewItemAttributes s item attributes = 0) ∧
    (∀ pidl, s.itemCompleteIdl item = some pidl →
      FAILED (s.GetItemAttributes (some pidl) attributes).1 = true →
      TestListViewItemAttributes s item attributes = 0) ∧
    SUCCEEDED (TestListViewItemAttributes s item attributes) = true ∧
    FAILED (TestListViewItemAttributes s item attributes) = false := by
  unfold TestListViewItemAttributes GetListViewItemAttributes
  have f0 : FAILED (0 : Int) = false := by decide
  have f1 : FAILED (1 : Int) = false := by decide
  cases hp : s.itemCompleteIdl item with
  | none =>
    have h0 : SUCCEEDED (0 : Int) = true := by decide
    simp [SUCCEEDED_E_FAIL, FALSE, h0, f0]
  | some pidl =>
    have h0 : SUCCEEDED (0 : Int) = true := by decide
    have h1 : SUCCEEDED (1 : Int) = true := by decide
    cases hs : SUCCEEDED (s.GetItemAttributes (some pidl) attributes).1
    · simp [FALSE, h0, f0, hs, FAILED_eq_not_SUCCEEDED]
    · by_cases hb : (s.GetItemAttributes (some pidl) attributes).2 &&& attributes = attributes
      · simp [hb, ofBool, h1, f1, hs, FAILED_eq_not_SUCCEEDED]
      · simp [hb, ofBool, h0, f0, FALSE, hs, FAILED_eq_not_SUCCEEDED]

end Explorerplusplus

/-! ## Properties of `BookmarksMainMenu::OnMenuItemMiddleClicked` -/

namespace BookmarksMainMenu

theorem findTarget_eq_none_iff {Item MenuItemType : Type} (m : MenuState Item MenuItemType)
    (pt : POINT) (menus : List HMENU) :
    findTarget m pt menus = none ↔ ∀ menu ∈ menus, m.MenuItemFromPoint menu pt < 0 := by
  induction menus with
  | nil => simp [findTarget]
  | cons menu rest ih =>
    by_cases h : m.MenuItemFromPoint menu pt ≥ 0
    · have h2 : ¬ m.MenuItemFromPoint menu pt < 0 := not_lt.mpr h
      simp [findTarget, h, h2]
    · have h2 : m.MenuItemFromPoint menu pt < 0 := not_le.mp h
      simp [findTarget, h, h2, ih]

theorem findTarget_first_hit {Item MenuItemType : Type} (m : MenuState Item MenuItemType)
    (pt : POINT) (before : List HMENU) (menu : HMENU) (after : List HMENU)
    (hBefore : ∀ x ∈ before, m.MenuItemFromPoint x pt < 0)
    (hHit : 0 ≤ m.MenuItemFromPoint menu pt) :
    findTarget m pt (before ++ menu :: after) = some (menu, m.MenuItemFromPoint menu pt) := by
  induction before with
  | nil => simp [findTarget, hHit]
  | cons x rest ih =>
    have hx : ¬ m.MenuItemFromPoint x pt ≥ 0 := not_le.mpr (hBefore x (by simp))
    have hrest : ∀ y ∈ rest, m.MenuItemFromPoint y pt < 0 :=
      fun y hy => hBefore y (by simp [hy])
    simp [findTarget, hx, ih hrest]

/-- C8: `OnMenuItemMiddleClicked` returns false exactly when no tracked menu reports an item
index `>= 0` at the point, and then calls nothing. Otherwise, with `menu` the first tracked
menu that reports an index `>= 0`, it returns true; it calls the controller once, with the
entry's bookmark item and the given ctrl/shift flags, when `(menu, index)` is in the item
position map with an entry that is not an `EmptyItem`, and does not call it when the position
is not in the map or its entry is an `EmptyItem`. -/
theorem OnMenuItemMiddleClicked_behaviour {Item MenuItemType : Type}
    [DecidableEq MenuItemType] (m : MenuState Item MenuItemType) (pt : POINT)
    (isCtrlKeyDown isShiftKeyDown : Bool) :
    ((OnMenuItemMiddleClicked m pt isCtrlKeyDown isShiftKeyDown).1 = false ↔
      ∀ menu ∈ m.menus, m.MenuItemFromPoint menu pt < 0) ∧
    ((OnMenuItemMiddleClicked m pt isCtrlKeyDown isShiftKeyDown).1 = false →
      (OnMenuItemMiddleClicked m pt isCtrlKeyDown isShiftKeyDown).2 = []) ∧
    (∀ before menu after, m.menus = before ++ menu :: after →
      (∀ x ∈ before, m.MenuItemFromPoint x pt < 0) → 0 ≤ m.MenuItemFromPoint menu pt →
      (OnMenuItemMiddleClicked m pt isCtrlKeyDown isShiftKeyDown).1 = true ∧
      (∀ entry, m.itemPositionMap (menu, m.MenuItemFromPoint menu pt) = some entry →
        entry.menuItemType ≠ m.EmptyItem →
        (OnMenuItemMiddleClicked m pt isCtrlKeyDown isShiftKeyDown).2
          = [⟨entry.bookmarkItem, isCtrlKeyDown, isShiftKeyDown⟩]) ∧
      (∀ entry, m.itemPositionMap (menu, m.MenuItemFromPoint menu pt) = some entry →
        entry.menuItemType = m.EmptyItem →
        (OnMenuItemMiddleClicked m pt isCtrlKeyDown isShiftKeyDown).2 = []) ∧
      (m.itemPositionMap (menu, m.MenuItemFromPoint menu pt) = none →
        (OnMenuItemMiddleClicked m pt isCtrlKeyDown isShiftKeyDown).2 = [])) := by
  refine ⟨?_, ?_, ?_⟩
  · rw [← findTarget_eq_none_iff]
    unfold OnMenuItemMiddleClicked
    cases hf : findTarget m pt m.menus with
    | none => simp
    | some target =>
      cases hm : m.itemPositionMap target with
      | none => simp [hm]
      | some entry => by_cases he : entry.menuItemType = m.EmptyItem <;> simp [hm, he]
  · unfold OnMenuItemMiddleClicked
    cases hf : findTarget m pt m.menus with
    | none => simp
    | some target =>
      cases hm : m.itemPositionMap target with
      | none => simp [hm]
      | some entry => by_cases he : entry.menuItemType = m.EmptyItem <;> simp [hm, he]
  · intro before menu after hmenus hBefore hHit
    have hf := findTarget_first_hit m pt before menu after hBefore hHit
    rw [← hmenus] at hf
    unfold OnMenuItemMiddleClicked
    rw [hf]
    cases hm : m.itemPositionMap (menu, m.MenuItemFromPoint menu pt) with
    | none => simp [hm]
    | some entry => by_cases he : entry.menuItemType = m.EmptyItem <;> simp [hm, he]

/-- Witness for C8: the first menu fails with `-2`, the second reports item `3`, which stands
for bookmark `42`: the call returns true and forwards bookmark `42` with the flags. -/
theorem OnMenuItemMiddleClicked_behaviour_witness :
    OnMenuItemMiddleClicked twoMenus ⟨0, 0⟩ true false = (true, [⟨42, true, false⟩]) ∧
    (OnMenuItemMiddleClicked twoMenus ⟨0, 0⟩ true false).1 = true :=
  ⟨rfl, ((OnMenuItemMiddleClicked_behaviour twoMenus ⟨0, 0⟩ true false).2.2
    [10] 20 [] rfl (by decide) (by decide)).1⟩

end BookmarksMainMenu

/-! ## Properties of `BookmarkTree` -/

namespace Bookmarks

namespace BookmarkItem

theorem insertIdx_eq_take_cons_drop {α : Type} (x : α) :
    ∀ (l : List α) (i : Nat), i ≤ l.length → l.insertIdx i x = l.take i ++ [x] ++ l.drop i
  | l, 0, _ => by simp
  | [], i + 1, h => by simp at h
  | a :: l, i + 1, h => by
    have h2 : i ≤ l.length := by simpa using h
    simp [List.insertIdx_succ_cons, insertIdx_eq_take_cons_drop x l i h2]

theorem getElem?_split {α : Type} :
    ∀ (l : List α) (i : Nat) (a : α), l[i]? = some a →
      ∃ before after, l = before ++ a :: after ∧ before.length = i
  | [], i, a, h => by simp at h
  | b :: l, 0, a, h => by
    simp at h
    exact ⟨[], l, by simp [h], rfl⟩
  | b :: l, i + 1, a, h => by
    have h2 : l[i]? = some a := by simpa using h
    obtain ⟨before, after, hl, hlen⟩ := getElem?_split l i a h2
    exact ⟨b :: before, after, by simp [hl], by simp [hlen]⟩

theorem set_split {α : Type} (before after : List α) (a b : α) :
    (before ++ a :: after).set before.length b = before ++ b :: after := by
  induction before with
  | nil => simp
  | cons c rest ih => simp [ih]

theorem getElem?_mid {α : Type} (before after : List α) (a : α) :
    (before ++ a :: after)[before.length]? = some a := by
  induction before with
  | nil => simp
  | cons c rest ih => simpa using ih

theorem insertChildAt_children (x : BookmarkItem) (index : Nat) :
    ∀ (path : List Nat) (root : BookmarkItem) (guid name : String)
      (children : List BookmarkItem),
      itemAt path root = some (Folder guid name children) → index ≤ children.length →
      ∃ root2, insertChildAt x index path root = some root2 ∧
        itemAt path root2
          = some (Folder guid name (children.take index ++ [x] ++ children.drop index))
  | [], root, guid, name, children, h, hi => by
    simp [itemAt] at h
    subst h
    refine ⟨Folder guid name (children.insertIdx index x), by simp [insertChildAt, hi], ?_⟩
    simp only [itemAt, insertIdx_eq_take_cons_drop x children index hi]
  | i :: rest, Bookmark g n l, guid, name, children, h, hi => by simp [itemAt] at h
  | i :: rest, Folder g n cs, guid, name, children, h, hi => by
    simp only [itemAt] at h
    cases hc : cs[i]? with
    | none => simp [hc] at h
    | some child =>
      simp only [hc] at h
      obtain ⟨child2, h1, h2⟩ := insertChildAt_children x index rest child guid name children h hi
      obtain ⟨before, after, hl, hlen⟩ := getElem?_split cs i child hc
      refine ⟨Folder g n (cs.set i child2), by simp [insertChildAt, hc, h1], ?_⟩
      subst hl
      subst hlen
      simp only [itemAt, set_split, getElem?_mid, h2]

/-- A node other than the root can always be detached, whatever the identifiers are. -/
theorem removeAt_succeeds :
    ∀ (path : List Nat) (root item : BookmarkItem), path ≠ [] →
      itemAt path root = some item → ∃ root2, removeAt path root = some root2
  | [], root, item, hne, h => absurd rfl hne
  | i :: rest, Bookmark g n l, item, hne, h => by simp [itemAt] at h
  | [i], Folder g n cs, item, hne, h => by
    simp only [itemAt] at h
    cases hc : cs[i]? with
    | none => simp [hc] at h
    | some child =>
      obtain ⟨hlt, _⟩ := List.getElem?_eq_some.mp hc
      exact ⟨Folder g n (cs.eraseIdx i), by simp [removeAt, hlt]⟩
  | i :: j :: rest, Folder g n cs, item, hne, h => by
    simp only [itemAt] at h
    cases hc : cs[i]? with
    | none => simp [hc] at h
    | some child =>
      simp only [hc] at h
      obtain ⟨child2, h1⟩ := removeAt_succeeds (j :: rest) child item (by simp) h
      exact ⟨Folder g n (cs.set i child2), by simp [removeAt, hc, h1]⟩

end BookmarkItem

namespace BookmarkTree

/-- For every tree, unique identifiers or not, removing a node that is neither the root nor a
permanent folder emits pre-removal on the tree as it was and then removed with the
identifier of the node, and nothing else. -/
theorem RemoveBookmarkItem_emits (t : BookmarkTree) (path : List Nat) (n : BookmarkItem)
    (hNode : BookmarkItem.itemAt path t.m_root = some n) (hNotRoot : path ≠ [])
    (hNotPermanent : t.IsPermanentNode n = false) :
    ∃ root2,
      t.RemoveBookmarkItem path
        = some ({ t with m_root := root2 },
            [⟨Signal.bookmarkItemPreRemoval n, t.m_root⟩,
             ⟨Signal.bookmarkItemRemoved n.GetGUID, root2⟩]) := by
  obtain ⟨root2, h1⟩ := BookmarkItem.removeAt_succeeds path t.m_root n hNotRoot hNode
  exact ⟨root2, by simp [RemoveBookmarkItem, hNode, hNotRoot, hNotPermanent, h1]⟩

/-- C1: for a folder `parent` of the tree with children `children` and an index
`index <= children.length`, `AddBookmarkItem(parent, x, index)` succeeds, leaves the folder
with the children `children.take index ++ [x] ++ children.drop index`, and emits exactly one
notification, item-added carrying `x` and `index`, delivered on the tree in which the
insertion is already done. -/
theorem AddBookmarkItem_inserts (t : BookmarkTree) (parent : List Nat) (guid name : String)
    (children : List BookmarkItem) (x : BookmarkItem) (index : Nat)
    (hParent : BookmarkItem.itemAt parent t.m_root
      = some (BookmarkItem.Folder guid name children))
    (hIndex : index ≤ children.length) :
    ∃ root2,
      t.AddBookmarkItem parent x index
        = some ({ t with m_root := root2 }, [⟨Signal.bookmarkItemAdded x index, root2⟩]) ∧
      BookmarkItem.itemAt parent root2
        = some (BookmarkItem.Folder guid name
            (children.take index ++ [x] ++ children.drop index)) := by
  obtain ⟨root2, h1, h2⟩ :=
    BookmarkItem.insertChildAt_children x index parent t.m_root guid name children hParent hIndex
  exact ⟨root2, by simp [AddBookmarkItem, h1], h2⟩

/-- Witness for C1: a bookmark added to the menu folder of `exampleTree` at index 1 lands
between the two existing children. -/
theorem AddBookmarkItem_inserts_witness :
    ∃ root2,
      exampleTree.AddBookmarkItem [1] newBookmark 1
        = some ({ exampleTree with m_root := root2 },
            [⟨Signal.bookmarkItemAdded newBookmark 1, root2⟩]) ∧
      BookmarkItem.itemAt [1] root2
        = some (BookmarkItem.Folder "menu" "Bookmarks Menu"
            ([BookmarkItem.Bookmark "b1" "Example" "https://example.com",
              BookmarkItem.Folder "f1" "Work"
                [BookmarkItem.Bookmark "b2" "Documents" "C:/Documents"]].take 1
              ++ [newBookmark]
              ++ [BookmarkItem.Bookmark "b1" "Example" "https://example.com",
              BookmarkItem.Folder "f1" "Work"
                [BookmarkItem.Bookmark "b2" "Documents" "C:/Documents"]].drop 1)) :=
  AddBookmarkItem_inserts exampleTree [1] "menu" "Bookmarks Menu" _ newBookmark 1 rfl
    (by decide)

/-- C3: calling `RemoveBookmarkItem` on a permanent folder (the node `m_bookmarksToolbar` or
`m_bookmarksMenu` points to) is rejected: the call returns with the tree as it was, root and
pointers included, and emits no notification. -/
theorem RemoveBookmarkItem_permanent_rejected (t : BookmarkTree) (path : List Nat)
    (p : BookmarkItem) (hNode : BookmarkItem.itemAt path t.m_root = some p)
    (hPermanent : p.GetGUID = t.m_bookmarksToolbar ∨ p.GetGUID = t.m_bookmarksMenu) :
    t.RemoveBookmarkItem path = some (t, []) := by
  have h : t.IsPermanentNode p = true := by
    rcases hPermanent with h | h <;> simp [IsPermanentNode, h]
  simp [RemoveBookmarkItem, hNode, h]

/-- Witness for C3: the toolbar folder of `exampleTree` cannot be removed. -/
theorem RemoveBookmarkItem_permanent_rejected_witness :
    exampleTree.RemoveBookmarkItem [0] = some (exampleTree, []) :=
  RemoveBookmarkItem_permanent_rejected exampleTree [0]
    (BookmarkItem.Folder "toolbar" "Bookmarks Toolbar" []) rfl (Or.inl rfl)

end BookmarkTree

end Bookmarks
